import Mathlib

/-!
Verification development for the rag-agent-chat agent core: the turn-routing
state machine and lifecycle operations of `src/agent/agent.py`, and the BM25
lexical-index rebuild pipeline of `src/config/configurer/bm25.py`.

Python strings are modelled as lists of Unicode codepoints (`List Nat`);
Python string operations (`lower`, `translate`-deletion, `split`, `strip`)
are modelled as functions over those lists on the ASCII range.
-/

namespace RagAgent

/-- Whitespace codepoints recognised by Python `str.split()` / `str.strip()`
(ASCII: tab, LF, VT, FF, CR, space). -/
def isSpace (c : Nat) : Bool :=
  (c == 9) || (c == 10) || (c == 11) || (c == 12) || (c == 13) || (c == 32)

/-- Python `str.lower()` on the ASCII range: map A-Z (65-90) to a-z (97-122). -/
def toLowerCh (c : Nat) : Nat :=
  if 65 ≤ c ∧ c ≤ 90 then c + 32 else c

/-- Membership in the Python `string.punctuation` set
(codepoints 33-47, 58-64, 91-96, 123-126). -/
def isPunct (c : Nat) : Bool :=
  (33 ≤ c && c ≤ 47) || (58 ≤ c && c ≤ 64) || (91 ≤ c && c ≤ 96) || (123 ≤ c && c ≤ 126)

/-- Python `str.split()` with no separator: split on runs of whitespace,
discarding empty fragments. -/
def pySplit : List Nat → List (List Nat)
  | [] => []
  | c :: rest =>
    if isSpace c then pySplit rest
    else
      (c :: rest).takeWhile (fun x => !isSpace x)
        :: pySplit ((c :: rest).dropWhile (fun x => !isSpace x))
termination_by s => s.length
decreasing_by
  · simp
  · rename_i hcond
    have hc : isSpace c = false := by simpa using hcond
    have hlen : ∀ l : List Nat, (List.dropWhile (fun x => !isSpace x) l).length ≤ l.length := by
      intro l
      induction l with
      | nil => simp
      | cons y ys ih =>
        rw [List.dropWhile_cons]
        cases h : !isSpace y
        · simp [h]
        · simp only [if_pos rfl]
          exact Nat.le_succ_of_le ih
    rw [List.dropWhile_cons, if_pos (by simp [hc])]
    have := hlen rest
    simp only [List.length_cons]
    omega

/-- Python `str.strip()`: drop leading and trailing whitespace. -/
def pyStrip (s : List Nat) : List Nat :=
  ((s.dropWhile isSpace).reverse.dropWhile isSpace).reverse

/-- Join a list of token strings with a single space (codepoint 32),
as the Python `" ".join(tokens)`. -/
def joinSpace : List (List Nat) → List Nat
  | [] => []
  | [t] => t
  | t :: ts => t ++ 32 :: joinSpace ts

/-- Modelled from the spec: `TextPreprocessing.remove_emoji` is not part of the
provided sources; §4.1 describes it as "conditionally stripping emoji glyphs".
The emoji glyph set is modelled as a fixed finite set of codepoints
(a representative sample of the emoji blocks); no whitespace is an emoji. -/
def emojiCodes : List Nat :=
  [0x1F600, 0x1F601, 0x1F602, 0x1F603, 0x1F604, 0x1F60D, 0x1F62D, 0x1F44D,
   0x1F525, 0x1F389, 0x2764, 0x1F308, 0x1F680]

/-- Modelled from the spec: `TextPreprocessing.remove_emoji` strips every
emoji glyph from the text. -/
def remove_emoji (s : List Nat) : List Nat :=
  s.filter fun c => !(emojiCodes.contains c)

/-- Modelled from the spec: the emoticon glyph set for
`TextPreprocessing.remove_emoticons`, a fixed finite set of codepoints
(white/black smiley faces and kin); no whitespace is an emoticon glyph. -/
def emoticonCodes : List Nat :=
  [0x263A, 0x263B, 0x2639, 0x30C4, 0xAF2F]

/-- Modelled from the spec: `TextPreprocessing.remove_emoticons` strips every
emoticon glyph from the text. -/
def remove_emoticons (s : List Nat) : List Nat :=
  s.filter fun c => !(emoticonCodes.contains c)

/-- Modelled from the spec: `TextPreprocessing.remove_words` (the helper built
from `removal_words_path`) removes every token present in the loaded stop-word
set, rejoining the surviving tokens with single spaces. -/
def remove_words (stop : List (List Nat)) (s : List Nat) : List Nat :=
  joinSpace ((pySplit s).filter fun t => !(stop.contains t))

/-- The slice of `BM25Configuration` (`src/config/model/retriever/bm25.py`)
consumed by the rebuild: the emoji/emoticon switches, the loaded stop-word set
standing for `removal_words_path` (None when no path is configured), and the
retrieval size `k`. -/
structure BM25Configuration where
  enable_remove_emoji : Bool
  enable_remove_emoticon : Bool
  removal_words : Option (List (List Nat))
  k : Nat
  deriving DecidableEq

/-- Character-level stages of `preprocess` (bm25.py lines 139-144): lower-case,
delete punctuation, then conditionally delete emoji and emoticon glyphs. -/
def normalizeStage1 (cfg : BM25Configuration) (text : List Nat) : List Nat :=
  let n0 := (text.map toLowerCh).filter fun c => !isPunct c
  let n1 := if cfg.enable_remove_emoji then remove_emoji n0 else n0
  if cfg.enable_remove_emoticon then remove_emoticons n1 else n1

/-- Full normalization of `preprocess` before the final split (bm25.py lines
139-146): stage-1 character cleanup, then stop-word removal when a
removal-words file is configured. -/
def normalizeText (cfg : BM25Configuration) (text : List Nat) : List Nat :=
  match cfg.removal_words with
  | some stop => remove_words stop (normalizeStage1 cfg text)
  | none => normalizeStage1 cfg text

/-- The `preprocess` closure passed to `BM25Retriever.from_documents`
(bm25.py lines 138-147): normalize, then `split()` into tokens. -/
def preprocess (cfg : BM25Configuration) (text : List Nat) : List (List Nat) :=
  pySplit (normalizeText cfg text)

/-- Characters already in normal form for a given configuration: fixed by
lower-casing, not punctuation, and outside whichever glyph sets are enabled. -/
def cfgGood (cfg : BM25Configuration) (c : Nat) : Prop :=
  toLowerCh c = c ∧ isPunct c = false ∧
    (cfg.enable_remove_emoji = true → emojiCodes.contains c = false) ∧
    (cfg.enable_remove_emoticon = true → emoticonCodes.contains c = false)

/-- Message roles of the langchain message classes used by the agent:
`HumanMessage`, AI messages, `SystemMessage`, `ToolMessage`. -/
inductive Role
  | human
  | ai
  | system
  | tool
  deriving DecidableEq

/-- A conversation message: role tag plus string content (codepoints). -/
structure Msg where
  role : Role
  content : List Nat
  deriving DecidableEq

/-- An attachment as carried by the graph state:
`{id, name, mime_type, url}` (`src/agent/__init__.py` State, used by agent.py). -/
structure Attachment where
  id : List Nat
  name : List Nat
  mime_type : List Nat
  url : List Nat
  deriving DecidableEq

/-- The graph `State`: running message history plus optional attachment. -/
structure State where
  messages : List Msg
  attachment : Option Attachment
  deriving DecidableEq

/-- Node-name string of the RESPOND node. -/
def node_query_or_respond : String := "query_or_respond"

/-- Node-name string of the SUGGEST node. -/
def node_suggest_questions : String := "suggest_questions"

/-- Node-name string of the ToolNode of the RESPOND branch. -/
def node_tools_1 : String := "tools_1"

/-- Node-name string of the ToolNode of the SUGGEST branch. -/
def node_tools_2 : String := "tools_2"

/-- The `_routing_function` of agent.py lines 23-28: inspect the last message;
route to SUGGEST when it is not a `HumanMessage` or its stripped content is
empty, otherwise to RESPOND. Python indexes `messages[-1]`, raising on an
empty history, modelled by returning `none` there. -/
def _routing_function (state : State) : Option String :=
  match state.messages.getLast? with
  | none => none
  | some latest =>
    if latest.role ≠ Role.human ∨ (pyStrip latest.content).length = 0 then
      some node_suggest_questions
    else
      some node_query_or_respond

/-- The `image_recognizer_configurer` collaborator: it may itself be absent,
and when present its `tool` may be absent. -/
structure ImageRecognizerConfigurer where
  tool : Option String

/-- The slice of `AgentConfigurer` read by the RESPOND/SUGGEST nodes:
`language_name` stands for `SUPPORTED_LANGUAGE_DICT[config.language]`,
the two prompts come from `config.prompt`. -/
structure NodeConfig where
  language_name : String
  respond_prompt : String
  suggest_questions_prompt : String
  image_recognizer_configurer : Option ImageRecognizerConfigurer

/-- One entry of a constructed `ChatPromptTemplate`: fixed system/human text,
the `MessagesPlaceholder` for the running history, or the formatted
`ATTACHMENT_INSTRUCTION` human message (the only prompt entry that instructs
the model to call a recognition tool). -/
inductive PMsg
  | systemMsg (content : String)
  | humanMsg (content : String)
  | placeholder
  | attachmentInstruction (att : Attachment)
  deriving DecidableEq

/-- The two fixed system directives prepended by both nodes
(agent.py lines 295-298 and 345-348). -/
def system_msgs (cfg : NodeConfig) : List PMsg :=
  [.systemMsg ("You must answer in " ++ cfg.language_name ++ "."),
   .systemMsg ("Queries for using tools purpose must be in " ++ cfg.language_name ++ ".")]

/-- The fixed refusal sentence used by both nodes when an attachment is
present but no image recognizer is configured. -/
def refusal_text : String :=
  "You must only say the following sentence: I cannot recognize the attachment. Because I have not been configured the image recognizer yet."

/-- The fixed error sentence of the SUGGEST node when no attachment was
provided (source concatenates the two literals without a space). -/
def attachment_error_text : String :=
  "You must only say the following sentence:An error occurred while processing the attachment."

/-- The shared no-repeat system directive of the tool-result cases. -/
def no_repeat_text : String :=
  "You should not repeat the received recognition result, you just need to extract related information to doing your tasks."

/-- Tool-result human instruction of the RESPOND node. -/
def respond_tool_result_text : String :=
  "Tell me what you think about the attachment based on the received recognition result and the provided questions."

/-- Tool-result human instruction of the SUGGEST node (two deliverables). -/
def suggest_tool_result_text : String :=
  "Based on the received recognition result, you must do the following things:\n1. Tell me what you think about the attachment.\n2. Suggest some questions about the attachment."

/-- Recognition is unavailable when the recognizer configurer is absent or
carries no tool: `image_recognizer_configurer is None or ....tool is None`. -/
def no_recognizer (cfg : NodeConfig) : Bool :=
  match cfg.image_recognizer_configurer with
  | none => true
  | some irc => irc.tool.isNone

/-- Python `isinstance(state["messages"][-1], ToolMessage)` on the history. -/
def last_is_tool_message (msgs : List Msg) : Bool :=
  match msgs.getLast? with
  | some m => decide (m.role = Role.tool)
  | none => false

/-- Prompt selection of `Agent._query_or_respond` (agent.py lines 291-330):
refusal when attachment present without recognizer; attachment instruction
when recognizer available; tool-result synthesis when the last message is a
tool result; otherwise the configured respond prompt plus history. -/
def query_or_respond_prompt (cfg : NodeConfig) (state : State) : List PMsg :=
  let sys := system_msgs cfg
  match state.attachment with
  | some att =>
    if no_recognizer cfg then sys ++ [.humanMsg refusal_text]
    else sys ++ [.systemMsg cfg.respond_prompt, .placeholder, .attachmentInstruction att]
  | none =>
    if last_is_tool_message state.messages then
      sys ++ [.placeholder, .systemMsg no_repeat_text, .humanMsg respond_tool_result_text]
    else
      sys ++ [.systemMsg cfg.respond_prompt, .placeholder]

/-- Prompt selection of `Agent._suggest_questions` (agent.py lines 341-380):
fixed error when no attachment; refusal when no recognizer; tool-result case;
otherwise the configured suggest prompt plus attachment instruction. -/
def suggest_questions_prompt (cfg : NodeConfig) (state : State) : List PMsg :=
  let sys := system_msgs cfg
  match state.attachment with
  | none => sys ++ [.humanMsg attachment_error_text]
  | some att =>
    if no_recognizer cfg then sys ++ [.humanMsg refusal_text]
    else if last_is_tool_message state.messages then
      sys ++ [.placeholder, .systemMsg no_repeat_text, .humanMsg suggest_tool_result_text]
    else
      sys ++ [.systemMsg cfg.suggest_questions_prompt, .placeholder, .attachmentInstruction att]

/-- The RESPOND node: build the prompt, invoke the (opaque) chat model once,
and return the single-message history delta `{"messages": [response]}`. -/
def query_or_respond (cfg : NodeConfig) (state : State)
    (chat_model : List PMsg → Msg) : List Msg :=
  [chat_model (query_or_respond_prompt cfg state)]

/-- The SUGGEST node: same shape as RESPOND with its own prompt selection. -/
def suggest_questions (cfg : NodeConfig) (state : State)
    (chat_model : List PMsg → Msg) : List Msg :=
  [chat_model (suggest_questions_prompt cfg state)]

/-- Number of prompt entries that instruct the model to invoke a recognition
tool (the formatted `ATTACHMENT_INSTRUCTION`); every other entry carries no
tool directive. -/
def tool_instruction_count (p : List PMsg) : Nat :=
  (p.filter fun m =>
    match m with
    | .attachmentInstruction _ => true
    | _ => false).length

/-- Terminal pseudo-node of langgraph. -/
def END : String := "__end__"

/-- Entry pseudo-node of langgraph. -/
def START : String := "__start__"

/-- Graph topology as assembled by `build_graph`: named nodes, plain edges,
and conditional edges recorded with their possible targets. -/
structure GraphTopology where
  nodes : List String
  edges : List (String × String)
  condEdges : List (String × List String)
  deriving DecidableEq

/-- `Agent.build_graph` (agent.py lines 233-266): always adds the RESPOND and
SUGGEST nodes and the START conditional edge; when `tools` is present and
non-empty it also adds `tools_1`/`tools_2` ToolNodes, one conditional
tool-edge per caller, and the loop-back edges. -/
def build_graph_topology (tools : Option (List String)) : GraphTopology :=
  let g0 : GraphTopology :=
    { nodes := [node_query_or_respond, node_suggest_questions], edges := [], condEdges := [] }
  let g1 :=
    match tools with
    | none => g0
    | some ts =>
      if ts.length ≠ 0 then
        { nodes := g0.nodes ++ [node_tools_1, node_tools_2],
          edges := g0.edges ++
            [(node_tools_1, node_query_or_respond), (node_tools_2, node_suggest_questions)],
          condEdges := g0.condEdges ++
            [(node_query_or_respond, [node_tools_1, END]),
             (node_suggest_questions, [node_tools_2, END])] }
      else g0
  { g1 with condEdges := g1.condEdges ++ [(START, [node_suggest_questions, node_query_or_respond])] }

/-- Successor set of a node: targets of its plain and conditional edges; in
langgraph a node with no outgoing edges implicitly transitions to the
terminal state, modelled by returning `[END]` for such nodes. -/
def successors (g : GraphTopology) (n : String) : List String :=
  let outs := ((g.edges.filter fun e => e.1 == n).map Prod.snd) ++
    (((g.condEdges.filter fun e => e.1 == n).map Prod.snd).flatten)
  if outs.isEmpty then [END] else outs

/-- Whether the topology contains the TOOLS nodes or any edge touching them. -/
def hasToolsTopology (g : GraphTopology) : Bool :=
  g.nodes.contains node_tools_1 || g.nodes.contains node_tools_2 ||
  (g.edges.any fun e =>
    e.1 == node_tools_1 || e.1 == node_tools_2 || e.2 == node_tools_1 || e.2 == node_tools_2) ||
  (g.condEdges.any fun e => e.2.contains node_tools_1 || e.2.contains node_tools_2)

/-- The agent's operational status literal: `"ON" | "OFF" | "RESTART"`. -/
inductive AgentStatus
  | ON
  | OFF
  | RESTART
  deriving DecidableEq

/-- A checkpointer collaborator instance (identity only; its operations are
external). -/
structure Checkpointer where
  id : Nat
  deriving DecidableEq

/-- A langchain document (content only; metadata is irrelevant to the
verified properties). -/
structure Doc where
  content : List Nat
  deriving DecidableEq

/-- A lexical retriever as built by `BM25Retriever.from_documents`: the
indexed chunks and the configured top-k. -/
structure Retriever where
  docs : List Doc
  k : Nat
  deriving DecidableEq

/-- The mutable state of `BM25ConfigurerImpl`: `_config`, `_retriever`,
`_last_sync` (timestamps as naturals). -/
structure BM25State where
  config : Option BM25Configuration
  retriever : Option Retriever
  last_sync : Option Nat
  deriving DecidableEq

/-- Process-wide state of the `Agent`: `_status`, `_is_configured`, `_graph`,
plus the configurer-owned collaborators the verified operations read
(`tools`, `checkpointer`, and the BM25 configurer state). -/
structure Agent where
  status : AgentStatus
  is_configured : Bool
  graph : Option GraphTopology
  tools : Option (List String)
  checkpointer : Option Checkpointer
  bm25 : BM25State
  deriving DecidableEq

/-- Error message raised when the agent is not configured. -/
def msg_not_configured : String :=
  "The agent has not been configured yet. Please call `configure()` first."

/-- Error message raised when the graph has not been initialized. -/
def msg_graph_not_initialized : String :=
  "The agent graph has not been initialized yet. Please call `build_graph()` first."

/-- Error message raised when the agent is turned off. -/
def msg_turned_off : String :=
  "The agent is turned off."

/-- Error message raised when the agent is restarting. -/
def msg_restarting : String :=
  "The agent is restarting."

/-- `Agent.check_graph_available` (agent.py lines 268-289): the four guard
checks, evaluated in order, each with its own message. -/
def check_graph_available (a : Agent) : Except String Unit :=
  if a.is_configured = false then .error msg_not_configured
  else if a.graph = none then .error msg_graph_not_initialized
  else if a.status = .OFF then .error msg_turned_off
  else if a.status = .RESTART then .error msg_restarting
  else .ok ()

/-- Placeholder topology used only to express `self._graph` access after the
guard has ensured the graph is present. -/
def emptyTopology : GraphTopology :=
  { nodes := [], edges := [], condEdges := [] }

/-- `Agent.stream`: guard first, then run the compiled graph (opaque `run`). -/
def stream (a : Agent) (run : GraphTopology → List State) : Except String (List State) :=
  match check_graph_available a with
  | .error e => .error e
  | .ok _ => .ok (run (a.graph.getD emptyTopology))

/-- `Agent.astream`: identical guard-then-run shape. -/
def astream (a : Agent) (run : GraphTopology → List State) : Except String (List State) :=
  match check_graph_available a with
  | .error e => .error e
  | .ok _ => .ok (run (a.graph.getD emptyTopology))

/-- `Agent.get_state`: guard first, then read one snapshot from the graph. -/
def get_state (a : Agent) (run : GraphTopology → State) : Except String State :=
  match check_graph_available a with
  | .error e => .error e
  | .ok _ => .ok (run (a.graph.getD emptyTopology))

/-- `Agent.get_state_history`: guard first, then collect snapshots. -/
def get_state_history (a : Agent) (run : GraphTopology → List State) :
    Except String (List State) :=
  match check_graph_available a with
  | .error e => .error e
  | .ok _ => .ok (run (a.graph.getD emptyTopology))

/-- Witness that `delete_thread` delegated to the configured checkpointer
with the stringified thread id. -/
inductive DeleteThreadResult
  | delegated (cp : Checkpointer) (thread_id : String)
  deriving DecidableEq

/-- Error message raised by `delete_thread` without a checkpointer. -/
def msg_no_checkpointer : String :=
  "Checkpointer is still not configured yet."

/-- `Agent.delete_thread` (agent.py lines 123-127): no readiness guard; raise
exactly when the checkpointer is absent, otherwise delegate. -/
def delete_thread (a : Agent) (thread_id : String) : Except String DeleteThreadResult :=
  match a.checkpointer with
  | none => .error msg_no_checkpointer
  | some cp => .ok (.delegated cp thread_id)

/-- `Agent.configure` (agent.py lines 129-136): skip when already configured
and not forced; otherwise run the external configurer (its collaborator
effects are opaque to this model) and mark configured. -/
def configure (a : Agent) (force : Bool) : Agent :=
  if a.is_configured && !force then a
  else { a with is_configured := true }

/-- `Agent.build_graph` state effect: store the freshly built topology. -/
def build_graph (a : Agent) : Agent :=
  { a with graph := some (build_graph_topology a.tools) }

/-- A yielded progress event `{status, percentage}` (percentages exact). -/
structure Progress where
  status : String
  percentage : ℚ
  deriving DecidableEq

/-- `Agent.restart` (agent.py lines 138-171) as a trace: the three yielded
progress events, each paired with the agent status readable at the moment it
is yielded, plus the final agent state. The status is only set to RESTART
after the first yield and back to ON before the last. -/
def restart (a : Agent) : List (Progress × AgentStatus) × Agent :=
  let e0 := ({ status := "RESTARTING", percentage := 0 : Progress }, a.status)
  let a1 := { a with status := AgentStatus.RESTART }
  let a2 := configure a1 true
  let e1 := ({ status := "RESTARTING", percentage := 3/5 : Progress }, a2.status)
  let a3 := build_graph a2
  let a4 := { a3 with status := AgentStatus.ON }
  let e2 := ({ status := "RESTARTED", percentage := 1 : Progress }, a4.status)
  ([e0, e1, e2], a4)

/-- `Agent.sync_bm25` (agent.py lines 223-226) as a trace: set status to
RESTART, run the configurer rebuild (opaque `rebuild` on the BM25 state),
set status back to ON; the returned `AgentStatus` is the status readable
while the rebuild runs. -/
def sync_bm25 (a : Agent) (rebuild : BM25State → BM25State) : Agent × AgentStatus :=
  let a1 := { a with status := AgentStatus.RESTART }
  let observed := a1.status
  let a2 := { a1 with bm25 := rebuild a1.bm25 }
  let a3 := { a2 with status := AgentStatus.ON }
  (a3, observed)

/-- Source tag of a `DocumentRecord`. -/
inductive DocumentSource
  | UPLOADED
  | EXTERNAL
  deriving DecidableEq

/-- One already-embedded chunk reference of an EXTERNAL document. -/
structure DocChunk where
  id : String
  deriving DecidableEq

/-- A document row as read by the rebuild (`get_all_vs_embedded`). -/
structure DbDocument where
  id : String
  source : DocumentSource
  embed_to_vs : String
  chunks : List DocChunk
  file_id : String
  deriving DecidableEq

/-- A vector store collaborator: fetch previously-embedded chunks by ids. -/
structure VectorStore where
  aget_by_ids : List String → List Doc

/-- File metadata resolved from a file id by the external file service. -/
structure FileMetadata where
  name : String
  path : String
  deriving DecidableEq

/-- External collaborators of the rebuild: store lookup by name, file-metadata
lookup by id, converter (file to markdown document), semantic chunker, and
the current time for `_last_sync`. -/
structure RebuildEnv where
  get_store : String → Option VectorStore
  get_file_metadata : String → Option FileMetadata
  convert : FileMetadata → Doc
  chunker : List Doc → List Doc
  now : Nat

/-- A logged skip warning of the EXTERNAL branch: document id and the
unconfigured store name. -/
structure SkipWarning where
  doc_id : String
  store_name : String
  deriving DecidableEq

/-- `get_from_uploaded_docs` (bm25.py lines 78-96): resolve file metadata
(silently dropping unresolvable ids), convert each file to one document. -/
def get_from_uploaded_docs (env : RebuildEnv) (documents : List DbDocument) : List Doc :=
  let files := documents.filterMap fun d => env.get_file_metadata d.file_id
  files.map env.convert

/-- `get_from_external_docs` (bm25.py lines 98-115): per document, resolve its
target store by name; if unconfigured, skip it with a warning; otherwise
fetch its chunks by id. Results keep document order. -/
def get_from_external_docs (get_store : String → Option VectorStore) :
    List DbDocument → List SkipWarning × List Doc
  | [] => ([], [])
  | d :: rest =>
    let r := get_from_external_docs get_store rest
    match get_store d.embed_to_vs with
    | none => ({ doc_id := d.id, store_name := d.embed_to_vs } :: r.1, r.2)
    | some vs => (r.1, vs.aget_by_ids (d.chunks.map DocChunk.id) ++ r.2)

/-- `BM25ConfigurerImpl.async_configure` (bm25.py lines 54-164), document
gathering and index construction: early return on an empty population;
otherwise partition by source, launch a task per non-empty branch, and — when
at least one task was launched — chunk the gathered documents and replace the
retriever, config and last-sync timestamp (the fire-and-forget
`update_document_bm25_status` bookkeeping is external to this state). -/
def async_configure (env : RebuildEnv) (cfg : BM25Configuration) (st : BM25State)
    (db_docs : List DbDocument) : BM25State :=
  if db_docs.length ≤ 0 then st
  else
    let uploaded_docs := db_docs.filter fun d => decide (d.source = DocumentSource.UPLOADED)
    let external_docs := db_docs.filter fun d => decide (d.source = DocumentSource.EXTERNAL)
    let chunk_tasks : List (List Doc) :=
      (if uploaded_docs.length > 0 then [get_from_uploaded_docs env uploaded_docs] else []) ++
      (if external_docs.length > 0 then [(get_from_external_docs env.get_store external_docs).2]
       else [])
    if chunk_tasks.length > 0 then
      let docs := chunk_tasks.flatten
      let chunks := env.chunker docs
      { config := some cfg,
        retriever := some { docs := chunks, k := cfg.k },
        last_sync := some env.now }
    else st

/-- A fresh BM25 configurer state (nothing built yet). -/
def sampleBM25State : BM25State :=
  { config := none, retriever := none, last_sync := none }

/-- A fully operational agent: configured, graph built, status ON. -/
def agent_ready : Agent :=
  { status := AgentStatus.ON, is_configured := true,
    graph := some (build_graph_topology none), tools := none,
    checkpointer := some { id := 1 }, bm25 := sampleBM25State }

/-- The operational agent after being switched OFF via the status setter. -/
def agent_off : Agent :=
  { agent_ready with status := AgentStatus.OFF }

/-- Environment for exercising the rebuild with no configured stores and no
resolvable files. -/
def bug_env : RebuildEnv :=
  { get_store := fun _ => none, get_file_metadata := fun _ => none,
    convert := fun _ => { content := [] }, chunker := fun ds => ds, now := 42 }

/-- A minimal BM25 configuration (no optional cleanup enabled, k = 4). -/
def bug_cfg : BM25Configuration :=
  { enable_remove_emoji := false, enable_remove_emoticon := false,
    removal_words := none, k := 4 }

/-- EXTERNAL document whose target store name is not configured. -/
def doc_B : DbDocument :=
  { id := "B", source := DocumentSource.EXTERNAL, embed_to_vs := "unknown",
    chunks := [], file_id := "fB" }

/-- A configured vector store whose chunk fetch returns one document per
requested id, carrying that id's codepoints as content. -/
def store_s1 : VectorStore :=
  { aget_by_ids := fun ids => ids.map fun i => { content := i.toList.map Char.toNat } }

/-- Store lookup that knows only the name s1. -/
def gs_example : String → Option VectorStore :=
  fun name => if name = "s1" then some store_s1 else none

/-- EXTERNAL document embedded to the configured store s1 with two chunks. -/
def doc_A : DbDocument :=
  { id := "A", source := DocumentSource.EXTERNAL, embed_to_vs := "s1",
    chunks := [{ id := "c1" }, { id := "c2" }], file_id := "fA" }

/-- Node configuration with no image recognizer configured. -/
def cfg_no_recognizer : NodeConfig :=
  { language_name := "English", respond_prompt := "the respond prompt",
    suggest_questions_prompt := "the suggest prompt",
    image_recognizer_configurer := none }

/-- A sample attachment. -/
def att_example : Attachment :=
  { id := [1], name := [2], mime_type := [3], url := [4] }

/-- A turn state carrying an attachment. -/
def st_with_attachment : State :=
  { messages := [{ role := Role.human, content := [104, 105] }],
    attachment := some att_example }

/-- Every token produced by `pySplit` is non-empty and contains no whitespace. -/
theorem pySplit_tokens_sound :
    ∀ s : List Nat, ∀ t ∈ pySplit s, t ≠ [] ∧ ∀ c ∈ t, isSpace c = false := by
  intro s
  induction s using pySplit.induct with
  | case1 =>
    intro t ht
    simp [pySplit] at ht
  | case2 c rest hsp ih =>
    intro t ht
    rw [pySplit, if_pos hsp] at ht
    exact ih t ht
  | case3 c rest hsp ih =>
    intro t ht
    rw [pySplit, if_neg hsp] at ht
    rcases List.mem_cons.mp ht with h | h
    · subst h
      constructor
      · rw [List.takeWhile_cons]
        have hc : isSpace c = false := by simpa using hsp
        simp [hc]
      · intro x hx
        have := List.mem_takeWhile_imp hx
        simpa using this
    · exact ih t h

theorem takeWhile_append_all {α : Type} (p : α → Bool) :
    ∀ (l₁ l₂ : List α), (∀ a ∈ l₁, p a = true) →
      List.takeWhile p (l₁ ++ l₂) = l₁ ++ List.takeWhile p l₂ := by
  intro l₁ l₂ h
  induction l₁ with
  | nil => simp
  | cons a l ih =>
    have ha : p a = true := h a (List.mem_cons_self a l)
    simp only [List.cons_append, List.takeWhile_cons, ha, if_true]
    rw [ih (fun x hx => h x (List.mem_cons_of_mem a hx))]

theorem dropWhile_append_all {α : Type} (p : α → Bool) :
    ∀ (l₁ l₂ : List α), (∀ a ∈ l₁, p a = true) →
      List.dropWhile p (l₁ ++ l₂) = List.dropWhile p l₂ := by
  intro l₁ l₂ h
  induction l₁ with
  | nil => simp
  | cons a l ih =>
    have ha : p a = true := h a (List.mem_cons_self a l)
    simp only [List.cons_append, List.dropWhile_cons, ha, if_true]
    exact ih (fun x hx => h x (List.mem_cons_of_mem a hx))

/-- Round trip: splitting a space-join of well-formed tokens recovers the
tokens. Well-formed means non-empty and whitespace-free, which is exactly
what `pySplit` produces (`pySplit_tokens_sound`). -/
theorem pySplit_joinSpace (ts : List (List Nat))
    (h : ∀ t ∈ ts, t ≠ [] ∧ ∀ c ∈ t, isSpace c = false) :
    pySplit (joinSpace ts) = ts := by
  induction ts with
  | nil => simp [joinSpace, pySplit]
  | cons t ts ih =>
    cases ts with
    | nil =>
      obtain ⟨hne, hns⟩ := h t (List.mem_cons_self t [])
      cases t with
      | nil => exact absurd rfl hne
      | cons c cs =>
        have hc : isSpace c = false := hns c (List.mem_cons_self c cs)
        rw [joinSpace, pySplit, if_neg (by simp [hc])]
        have hall : ∀ a ∈ c :: cs, (fun x => !isSpace x) a = true := by
          intro a ha; simp [hns a ha]
        rw [List.takeWhile_eq_self_iff.mpr hall]
        rw [List.dropWhile_eq_nil_iff.mpr hall]
        simp [pySplit]
    | cons t' ts' =>
      obtain ⟨hne, hns⟩ := h t (List.mem_cons_self t _)
      have hrest : ∀ u ∈ t' :: ts', u ≠ [] ∧ ∀ c ∈ u, isSpace c = false := by
        intro u hu; exact h u (List.mem_cons_of_mem t hu)
      cases t with
      | nil => exact absurd rfl hne
      | cons c cs =>
        have hc : isSpace c = false := hns c (List.mem_cons_self c cs)
        show pySplit ((c :: cs) ++ 32 :: joinSpace (t' :: ts')) = (c :: cs) :: t' :: ts'
        rw [List.cons_append, pySplit, if_neg (by simp [hc])]
        have hall : ∀ a ∈ c :: cs, (fun x => !isSpace x) a = true := by
          intro a ha; simp [hns a ha]
        rw [show (c :: (cs ++ 32 :: joinSpace (t' :: ts'))) =
              ((c :: cs) ++ 32 :: joinSpace (t' :: ts')) from by simp]
        rw [takeWhile_append_all _ _ _ hall, dropWhile_append_all _ _ _ hall]
        have h32 : List.takeWhile (fun x => !isSpace x) (32 :: joinSpace (t' :: ts')) = [] := by
          simp [List.takeWhile_cons, isSpace]
        have h32' : List.dropWhile (fun x => !isSpace x) (32 :: joinSpace (t' :: ts'))
            = 32 :: joinSpace (t' :: ts') := by
          simp [List.dropWhile_cons, isSpace]
        rw [h32, h32', List.append_nil]
        rw [pySplit, if_pos (by simp [isSpace])]
        rw [ih hrest]

/-- Every character of a space-join is the space or comes from a token. -/
theorem mem_joinSpace (ts : List (List Nat)) (c : Nat) (hc : c ∈ joinSpace ts) :
    c = 32 ∨ ∃ t ∈ ts, c ∈ t := by
  induction ts with
  | nil => simp [joinSpace] at hc
  | cons t ts ih =>
    cases ts with
    | nil =>
      right; exact ⟨t, List.mem_cons_self t [], hc⟩
    | cons t' ts' =>
      rw [show joinSpace (t :: t' :: ts') = t ++ 32 :: joinSpace (t' :: ts') from rfl] at hc
      rcases List.mem_append.mp hc with h | h
      · right; exact ⟨t, List.mem_cons_self t _, h⟩
      · rcases List.mem_cons.mp h with h | h
        · left; exact h
        · rcases ih h with h | ⟨u, hu, hcu⟩
          · left; exact h
          · right; exact ⟨u, List.mem_cons_of_mem t hu, hcu⟩

/-- Lower-casing is idempotent on codepoints. -/
theorem toLowerCh_idem (c : Nat) : toLowerCh (toLowerCh c) = toLowerCh c := by
  unfold toLowerCh
  split_ifs <;> omega

/-- The space codepoint is in normal form for every configuration. -/
theorem cfgGood_space (cfg : BM25Configuration) : cfgGood cfg 32 := by
  refine ⟨by decide, by decide, fun _ => by decide, fun _ => by decide⟩

/-- Characters of `pySplit` tokens come from the split string. -/
theorem pySplit_chars_mem :
    ∀ s : List Nat, ∀ t ∈ pySplit s, ∀ c ∈ t, c ∈ s := by
  intro s
  induction s using pySplit.induct with
  | case1 =>
    intro t ht
    simp [pySplit] at ht
  | case2 c rest hsp ih =>
    intro t ht x hx
    rw [pySplit, if_pos hsp] at ht
    exact List.mem_cons_of_mem c (ih t ht x hx)
  | case3 c rest hsp ih =>
    intro t ht x hx
    rw [pySplit, if_neg hsp] at ht
    rcases List.mem_cons.mp ht with h | h
    · subst h
      exact (List.takeWhile_sublist _).mem hx
    · exact (List.dropWhile_sublist _).mem (ih t h x hx)

theorem mem_remove_emoji {c : Nat} {s : List Nat} (h : c ∈ remove_emoji s) :
    c ∈ s ∧ emojiCodes.contains c = false := by
  have := List.mem_filter.mp h
  simpa using this

theorem mem_remove_emoticons {c : Nat} {s : List Nat} (h : c ∈ remove_emoticons s) :
    c ∈ s ∧ emoticonCodes.contains c = false := by
  have := List.mem_filter.mp h
  simpa using this

theorem mem_lowerPunct {c : Nat} {s : List Nat}
    (h : c ∈ (s.map toLowerCh).filter fun x => !isPunct x) :
    toLowerCh c = c ∧ isPunct c = false := by
  obtain ⟨h1, hp⟩ := List.mem_filter.mp h
  obtain ⟨a, _, rfl⟩ := List.mem_map.mp h1
  exact ⟨toLowerCh_idem a, by simpa using hp⟩

/-- The character-level stages leave only normal-form characters. -/
theorem normalizeStage1_good (cfg : BM25Configuration) (s : List Nat) :
    ∀ c ∈ normalizeStage1 cfg s, cfgGood cfg c := by
  intro c hc
  simp only [normalizeStage1] at hc
  cases h1 : cfg.enable_remove_emoji <;> cases h2 : cfg.enable_remove_emoticon <;>
    simp only [h1, h2, if_true, if_false, Bool.false_eq_true, Bool.true_eq_false] at hc
  · exact ⟨(mem_lowerPunct hc).1, (mem_lowerPunct hc).2, by simp [h1], by simp [h2]⟩
  · obtain ⟨hc', hco⟩ := mem_remove_emoticons hc
    exact ⟨(mem_lowerPunct hc').1, (mem_lowerPunct hc').2, by simp [h1], fun _ => hco⟩
  · obtain ⟨hc', hco⟩ := mem_remove_emoji hc
    exact ⟨(mem_lowerPunct hc').1, (mem_lowerPunct hc').2, fun _ => hco, by simp [h2]⟩
  · obtain ⟨hc', hco2⟩ := mem_remove_emoticons hc
    obtain ⟨hc'', hco1⟩ := mem_remove_emoji hc'
    exact ⟨(mem_lowerPunct hc'').1, (mem_lowerPunct hc'').2, fun _ => hco1, fun _ => hco2⟩

/-- The full normalization leaves only normal-form characters. -/
theorem normalizeText_good (cfg : BM25Configuration) (s : List Nat) :
    ∀ c ∈ normalizeText cfg s, cfgGood cfg c := by
  intro c hc
  cases hrw : cfg.removal_words with
  | none =>
    simp only [normalizeText, hrw] at hc
    exact normalizeStage1_good cfg s c hc
  | some stop =>
    simp only [normalizeText, hrw, remove_words] at hc
    rcases mem_joinSpace _ _ hc with h32 | ⟨t, ht, hct⟩
    · subst h32
      exact cfgGood_space cfg
    · have ht' : t ∈ pySplit (normalizeStage1 cfg s) := (List.filter_sublist _).mem ht
      exact normalizeStage1_good cfg s c (pySplit_chars_mem _ t ht' c hct)

theorem map_eq_self_of (f : Nat → Nat) :
    ∀ l : List Nat, (∀ a ∈ l, f a = a) → l.map f = l := by
  intro l h
  induction l with
  | nil => rfl
  | cons a l ih =>
    simp only [List.map_cons]
    rw [h a (List.mem_cons_self a l), ih fun x hx => h x (List.mem_cons_of_mem a hx)]

/-- The character-level stages fix any text of normal-form characters. -/
theorem normalizeStage1_id (cfg : BM25Configuration) (u : List Nat)
    (h : ∀ c ∈ u, cfgGood cfg c) : normalizeStage1 cfg u = u := by
  simp only [normalizeStage1]
  have hmap : u.map toLowerCh = u := map_eq_self_of _ u fun a ha => (h a ha).1
  rw [hmap]
  have hfil : (u.filter fun c => !isPunct c) = u :=
    List.filter_eq_self.mpr fun a ha => by
      show (!isPunct a) = true
      rw [(h a ha).2.1]
      rfl
  rw [hfil]
  have hrj : cfg.enable_remove_emoji = true → remove_emoji u = u := fun hf =>
    List.filter_eq_self.mpr fun a ha => by
      show (!(emojiCodes.contains a)) = true
      rw [(h a ha).2.2.1 hf]
      rfl
  have hrt : cfg.enable_remove_emoticon = true → remove_emoticons u = u := fun hf =>
    List.filter_eq_self.mpr fun a ha => by
      show (!(emoticonCodes.contains a)) = true
      rw [(h a ha).2.2.2 hf]
      rfl
  cases h1 : cfg.enable_remove_emoji <;> cases h2 : cfg.enable_remove_emoticon
  · simp [h1, h2]
  · simp [h1, h2, hrt h2]
  · simp [h1, h2, hrj h1]
  · simp [h1, h2, hrj h1, hrt h2]

/-- Claim C9: for every input text and every fixed normalization configuration
(emoji removal, emoticon removal, stop-word set), applying the normalizer to
the whitespace-rejoined output of a first application yields the same token
sequence: normalize(join(normalize(x))) = normalize(x). -/
theorem preprocess_idempotent (cfg : BM25Configuration) (s : List Nat) :
    preprocess cfg (joinSpace (preprocess cfg s)) = preprocess cfg s := by
  set ts := preprocess cfg s with hts
  set out := joinSpace ts with hout
  have hwf : ∀ t ∈ ts, t ≠ [] ∧ ∀ c ∈ t, isSpace c = false :=
    pySplit_tokens_sound (normalizeText cfg s)
  have hgood : ∀ c ∈ out, cfgGood cfg c := by
    intro c hc
    rw [hout] at hc
    rcases mem_joinSpace _ _ hc with h32 | ⟨t, ht, hct⟩
    · subst h32
      exact cfgGood_space cfg
    · exact normalizeText_good cfg s c (pySplit_chars_mem _ t ht c hct)
  have hstage : normalizeStage1 cfg out = out := normalizeStage1_id cfg out hgood
  show pySplit (normalizeText cfg out) = ts
  cases hrw : cfg.removal_words with
  | none =>
    rw [show normalizeText cfg out = normalizeStage1 cfg out from by
      simp [normalizeText, hrw]]
    rw [hstage, hout]
    exact pySplit_joinSpace ts hwf
  | some stop =>
    have hts_eq : ts = (pySplit (normalizeStage1 cfg s)).filter fun t => !(stop.contains t) := by
      rw [hts]
      show pySplit (normalizeText cfg s) = _
      rw [show normalizeText cfg s = remove_words stop (normalizeStage1 cfg s) from by
        simp [normalizeText, hrw]]
      rw [remove_words]
      apply pySplit_joinSpace
      intro t ht
      exact pySplit_tokens_sound _ t ((List.filter_sublist _).mem ht)
    have hstop : ∀ t ∈ ts, stop.contains t = false := by
      intro t ht
      rw [hts_eq] at ht
      have := (List.mem_filter.mp ht).2
      simpa using this
    rw [show normalizeText cfg out = remove_words stop (normalizeStage1 cfg out) from by
      simp [normalizeText, hrw]]
    rw [hstage, remove_words, hout, pySplit_joinSpace ts hwf]
    have hfix : (ts.filter fun t => !(stop.contains t)) = ts :=
      List.filter_eq_self.mpr fun t ht => by
        show (!(stop.contains t)) = true
        rw [hstop t ht]
        rfl
    rw [hfix]
    exact pySplit_joinSpace ts hwf

/-- Claim C1: for every conversation state whose messages list is non-empty,
the ENTRY routing function selects SUGGEST exactly when the last message is
not a human-authored message or its trimmed content is empty, and RESPOND in
every other case. (The function is installed as the START conditional edge,
so the decision is evaluated once per turn before any model call.) -/
theorem routing_function_spec (st : State) (h : st.messages ≠ []) :
    (_routing_function st = some node_suggest_questions ↔
      ((st.messages.getLast h).role ≠ Role.human ∨
        pyStrip (st.messages.getLast h).content = [])) ∧
    (_routing_function st = some node_query_or_respond ↔
      ((st.messages.getLast h).role = Role.human ∧
        pyStrip (st.messages.getLast h).content ≠ [])) := by
  have hlast : st.messages.getLast? = some (st.messages.getLast h) :=
    List.getLast?_eq_getLast st.messages h
  have hne : node_suggest_questions ≠ node_query_or_respond := by decide
  have hne' : node_query_or_respond ≠ node_suggest_questions := fun hx => hne hx.symm
  by_cases h1 : (st.messages.getLast h).role = Role.human
  · by_cases h2 : pyStrip (st.messages.getLast h).content = []
    · simp [_routing_function, hlast, h1, h2, List.length_eq_zero, hne, hne']
    · simp [_routing_function, hlast, h1, h2, List.length_eq_zero, hne, hne']
  · simp [_routing_function, hlast, h1, List.length_eq_zero, hne, hne']

/-- Witness: a history ending in a non-blank human message routes to RESPOND,
one ending in an AI message routes to SUGGEST. -/
theorem routing_function_spec_witness :
    _routing_function
        { messages := [{ role := Role.human, content := [104, 105] }], attachment := none } =
      some node_query_or_respond ∧
    _routing_function
        { messages := [{ role := Role.ai, content := [104, 105] }], attachment := none } =
      some node_suggest_questions :=
  ⟨(routing_function_spec
      { messages := [{ role := Role.human, content := [104, 105] }], attachment := none }
      (by decide)).2.mpr (by decide),
   (routing_function_spec
      { messages := [{ role := Role.ai, content := [104, 105] }], attachment := none }
      (by decide)).1.mpr (by decide)⟩

/-- Claim C2: every turn-execution call (stream/astream/get_state/
get_state_history) made while the agent is unconfigured, the graph is not
built, or the status is OFF or RESTART fails with the distinct error message
of the first violated precondition — the guard runs before the graph or
model is touched — and raises no such error when all four preconditions
hold. -/
theorem check_graph_available_spec (a : Agent)
    (runL runA runH : GraphTopology → List State) (runS : GraphTopology → State) :
    (check_graph_available a = .ok () ↔
      (a.is_configured = true ∧ a.graph ≠ none ∧
        a.status ≠ AgentStatus.OFF ∧ a.status ≠ AgentStatus.RESTART)) ∧
    (a.is_configured = false → check_graph_available a = .error msg_not_configured) ∧
    (a.is_configured = true → a.graph = none →
      check_graph_available a = .error msg_graph_not_initialized) ∧
    (a.is_configured = true → a.graph ≠ none → a.status = AgentStatus.OFF →
      check_graph_available a = .error msg_turned_off) ∧
    (a.is_configured = true → a.graph ≠ none → a.status = AgentStatus.RESTART →
      check_graph_available a = .error msg_restarting) ∧
    List.Pairwise (fun x y => x ≠ y)
      [msg_not_configured, msg_graph_not_initialized, msg_turned_off, msg_restarting] ∧
    (∀ e, stream a runL = .error e ↔ check_graph_available a = .error e) ∧
    (∀ e, astream a runA = .error e ↔ check_graph_available a = .error e) ∧
    (∀ e, get_state a runS = .error e ↔ check_graph_available a = .error e) ∧
    (∀ e, get_state_history a runH = .error e ↔ check_graph_available a = .error e) := by
  refine ⟨?_, ?_, ?_, ?_, ?_, by decide, ?_, ?_, ?_, ?_⟩
  · unfold check_graph_available
    split_ifs with h1 h2 h3 h4 <;> simp_all
  · intro h1
    unfold check_graph_available
    rw [if_pos h1]
  · intro h1 h2
    unfold check_graph_available
    rw [if_neg (by simp [h1]), if_pos h2]
  · intro h1 h2 h3
    unfold check_graph_available
    rw [if_neg (by simp [h1]), if_neg h2, if_pos h3]
  · intro h1 h2 h3
    unfold check_graph_available
    rw [if_neg (by simp [h1]), if_neg h2, if_neg (by simp [h3]), if_pos h3]
  · intro e
    cases hc : check_graph_available a <;> simp [stream, hc]
  · intro e
    cases hc : check_graph_available a <;> simp [astream, hc]
  · intro e
    cases hc : check_graph_available a <;> simp [get_state, hc]
  · intro e
    cases hc : check_graph_available a <;> simp [get_state_history, hc]

/-- Witness: the ready agent passes the guard; the switched-off agent fails
it with the turned-off message. -/
theorem check_graph_available_spec_witness :
    check_graph_available agent_ready = .ok () ∧
    check_graph_available agent_off = .error msg_turned_off :=
  ⟨(check_graph_available_spec agent_ready (fun _ => []) (fun _ => []) (fun _ => [])
      (fun _ => { messages := [], attachment := none })).1.mpr
      ⟨rfl, by decide, by decide, by decide⟩,
   (check_graph_available_spec agent_off (fun _ => []) (fun _ => []) (fun _ => [])
      (fun _ => { messages := [], attachment := none })).2.2.2.1 rfl (by decide) rfl⟩

/-- The external configurer call never changes the status field. -/
theorem configure_status (a : Agent) (force : Bool) :
    (configure a force).status = a.status := by
  unfold configure
  split_ifs <;> rfl

/-- Counterexample to claim C3 as stated: invoking `restart()` on an agent
whose status is OFF yields its first progress event while the status still
reads OFF, not ON. -/
theorem restart_counterexample :
    ((restart agent_off).1.map Prod.snd).head? ≠ some AgentStatus.ON := by
  decide

/-- Claim C3 (amended): every invocation of restart() yields exactly the
three progress events (RESTARTING, 0.0), (RESTARTING, 0.6), (RESTARTED, 1.0)
in order, and the agent status equals ON immediately after the last event and
in the final state; immediately before the first event the status equals the
status at invocation — in particular it is ON whenever restart was invoked
with status ON. -/
theorem restart_spec (a : Agent) :
    (restart a).1.map Prod.fst =
      [{ status := "RESTARTING", percentage := 0 },
       { status := "RESTARTING", percentage := 3/5 },
       { status := "RESTARTED", percentage := 1 }] ∧
    ((restart a).1.map Prod.snd).getLast? = some AgentStatus.ON ∧
    (restart a).2.status = AgentStatus.ON ∧
    ((restart a).1.map Prod.snd).head? = some a.status ∧
    (a.status = AgentStatus.ON →
      (restart a).1.map Prod.snd =
        [AgentStatus.ON, AgentStatus.RESTART, AgentStatus.ON]) := by
  refine ⟨rfl, rfl, rfl, rfl, fun hON => ?_⟩
  simp [restart, configure_status, hON]

/-- Witness: restarting the ready (ON) agent shows the ON, RESTART, ON status
trace at the three yield points. -/
theorem restart_spec_witness :
    (restart agent_ready).1.map Prod.snd =
      [AgentStatus.ON, AgentStatus.RESTART, AgentStatus.ON] :=
  (restart_spec agent_ready).2.2.2.2 rfl

/-- Claim C6: for every call to sync_bm25, the agent status reads RESTART
for the entire duration of the lexical-index rebuild (blocking turn
execution throughout, by the C2 guard) and reads ON once sync_bm25
finishes; the rebuild is applied to the BM25 configurer state. -/
theorem sync_bm25_spec (a : Agent) (rebuild : BM25State → BM25State) :
    (sync_bm25 a rebuild).2 = AgentStatus.RESTART ∧
    (sync_bm25 a rebuild).1.status = AgentStatus.ON ∧
    (sync_bm25 a rebuild).1.bm25 = rebuild a.bm25 :=
  ⟨rfl, rfl, rfl⟩

/-- Claim C10: delete_thread bypasses the readiness guard entirely — its
outcome is independent of status, configuration flag, graph, tools and BM25
state — delegating to the checkpointer whenever one is configured and
raising exactly when the checkpointer is None. -/
theorem delete_thread_spec (a : Agent) (tid : String) :
    (a.checkpointer = none → delete_thread a tid = .error msg_no_checkpointer) ∧
    (∀ cp, a.checkpointer = some cp →
      delete_thread a tid = .ok (.delegated cp tid)) ∧
    (∀ st ic g tl bm,
      delete_thread
        { status := st, is_configured := ic, graph := g, tools := tl,
          checkpointer := a.checkpointer, bm25 := bm } tid = delete_thread a tid) := by
  refine ⟨?_, ?_, ?_⟩
  · intro h
    simp [delete_thread, h]
  · intro cp h
    simp [delete_thread, h]
  · intro st ic g tl bm
    rfl

/-- Witness: the ready agent (even when switched OFF) delegates to its
checkpointer; an agent without a checkpointer raises. -/
theorem delete_thread_spec_witness :
    delete_thread agent_off "t-1" = .ok (.delegated { id := 1 } "t-1") ∧
    delete_thread { agent_ready with checkpointer := none } "t-1" =
      .error msg_no_checkpointer :=
  ⟨(delete_thread_spec agent_off "t-1").2.1 { id := 1 } rfl,
   (delete_thread_spec { agent_ready with checkpointer := none } "t-1").1 rfl⟩

/-- Claim C4 (code-bug exhibit): with an empty document population the
rebuild is a no-op, but for a non-empty population from which zero passages
are gathered (here one EXTERNAL document with an unconfigured store) the code
still replaces the retriever — building an index over zero chunks — and
updates the last-sync timestamp, because the skip condition tests the number
of launched branch tasks instead of the number of gathered chunks, leaving
the "No chunks for initializing BM25 retriever" skip branch unreachable. -/
theorem async_configure_zero_passages_bug :
    async_configure bug_env bug_cfg sampleBM25State [] = sampleBM25State ∧
    (get_from_external_docs bug_env.get_store [doc_B]).2 = [] ∧
    (async_configure bug_env bug_cfg sampleBM25State [doc_B]).last_sync = some 42 ∧
    (async_configure bug_env bug_cfg sampleBM25State [doc_B]).retriever =
      some { docs := [], k := 4 } :=
  ⟨rfl, rfl, rfl, rfl⟩

/-- Claim C5: during every rebuild, each EXTERNAL document whose target store
is not configured is skipped with a logged warning and does not abort the
branch (the gathered list is exactly the in-order concatenation over the
remaining documents), while the chunks of every configured document are
fetched by their ids and included in the gathered set. -/
theorem get_from_external_docs_spec (gs : String → Option VectorStore)
    (docs : List DbDocument) :
    ((get_from_external_docs gs docs).2 =
      (docs.map fun d =>
        match gs d.embed_to_vs with
        | none => []
        | some vs => vs.aget_by_ids (d.chunks.map DocChunk.id)).flatten) ∧
    ((get_from_external_docs gs docs).1 =
      docs.filterMap fun d =>
        if (gs d.embed_to_vs).isNone then
          some { doc_id := d.id, store_name := d.embed_to_vs }
        else none) ∧
    (∀ d ∈ docs, gs d.embed_to_vs = none →
      ({ doc_id := d.id, store_name := d.embed_to_vs } : SkipWarning) ∈
        (get_from_external_docs gs docs).1) ∧
    (∀ d ∈ docs, ∀ vs, gs d.embed_to_vs = some vs →
      ∀ c ∈ vs.aget_by_ids (d.chunks.map DocChunk.id),
        c ∈ (get_from_external_docs gs docs).2) := by
  induction docs with
  | nil =>
    refine ⟨rfl, rfl, ?_, ?_⟩
    · intro d hd
      cases hd
    · intro d hd
      cases hd
  | cons d rest ih =>
    obtain ⟨ih1, ih2, ih3, ih4⟩ := ih
    cases hgs : gs d.embed_to_vs with
    | none =>
      refine ⟨?_, ?_, ?_, ?_⟩
      · simpa [get_from_external_docs, hgs] using ih1
      · simpa [get_from_external_docs, hgs] using ih2
      · intro d' hd' hnone
        rcases List.mem_cons.mp hd' with heq | hd'
        · subst heq
          simp [get_from_external_docs, hgs]
        · have hmem := ih3 d' hd' hnone
          simp only [get_from_external_docs, hgs]
          exact List.mem_cons_of_mem _ hmem
      · intro d' hd' vs hvs c hc
        rcases List.mem_cons.mp hd' with heq | hd'
        · subst heq
          rw [hgs] at hvs
          cases hvs
        · have hmem := ih4 d' hd' vs hvs c hc
          simpa [get_from_external_docs, hgs] using hmem
    | some vs0 =>
      refine ⟨?_, ?_, ?_, ?_⟩
      · simp [get_from_external_docs, hgs, ih1]
      · simp [get_from_external_docs, hgs, ih2]
      · intro d' hd' hnone
        rcases List.mem_cons.mp hd' with heq | hd'
        · subst heq
          rw [hgs] at hnone
          cases hnone
        · have hmem := ih3 d' hd' hnone
          simpa [get_from_external_docs, hgs] using hmem
      · intro d' hd' vs hvs c hc
        rcases List.mem_cons.mp hd' with heq | hd'
        · subst heq
          rw [hgs] at hvs
          injection hvs with hv
          subst hv
          simp only [get_from_external_docs, hgs]
          exact List.mem_append.mpr (Or.inl hc)
        · have hmem := ih4 d' hd' vs hvs c hc
          simp only [get_from_external_docs, hgs]
          exact List.mem_append.mpr (Or.inr hmem)

/-- Witness: with store s1 configured and unknown not, the example of the spec —
document A on s1 with chunks c1, c2 and document B on unknown — yields a
warning for B while the chunk fetched for c1 is included. -/
theorem get_from_external_docs_spec_witness :
    ({ doc_id := "B", store_name := "unknown" } : SkipWarning) ∈
      (get_from_external_docs gs_example [doc_A, doc_B]).1 ∧
    ({ content := [99, 49] } : Doc) ∈
      (get_from_external_docs gs_example [doc_A, doc_B]).2 :=
  ⟨(get_from_external_docs_spec gs_example [doc_A, doc_B]).2.2.1 doc_B
      (by decide) rfl,
   (get_from_external_docs_spec gs_example [doc_A, doc_B]).2.2.2 doc_A
      (by decide) store_s1 rfl { content := [99, 49] } (by decide)⟩

/-- Claim C7: for every turn whose state carries an attachment while no
recognition tool is configured, both RESPOND and SUGGEST select the fixed
refusal prompt (the two system directives plus the refusal sentence), carry
zero tool-instruction entries, and each append exactly one message. -/
theorem refusal_when_no_recognizer (cfg : NodeConfig) (st : State)
    (chat_model : List PMsg → Msg) (att : Attachment)
    (hatt : st.attachment = some att) (hrec : no_recognizer cfg = true) :
    query_or_respond_prompt cfg st = system_msgs cfg ++ [.humanMsg refusal_text] ∧
    suggest_questions_prompt cfg st = system_msgs cfg ++ [.humanMsg refusal_text] ∧
    tool_instruction_count (query_or_respond_prompt cfg st) = 0 ∧
    tool_instruction_count (suggest_questions_prompt cfg st) = 0 ∧
    (query_or_respond cfg st chat_model).length = 1 ∧
    (suggest_questions cfg st chat_model).length = 1 := by
  have h1 : query_or_respond_prompt cfg st = system_msgs cfg ++ [.humanMsg refusal_text] := by
    unfold query_or_respond_prompt
    rw [hatt]
    simp [hrec]
  have h2 : suggest_questions_prompt cfg st = system_msgs cfg ++ [.humanMsg refusal_text] := by
    unfold suggest_questions_prompt
    rw [hatt]
    simp [hrec]
  refine ⟨h1, h2, ?_, ?_, rfl, rfl⟩
  · rw [h1]
    simp [tool_instruction_count, system_msgs]
  · rw [h2]
    simp [tool_instruction_count, system_msgs]

/-- Witness: the recognizer-less configuration with an attachment-carrying
state selects the refusal prompt and appends one message in each node. -/
theorem refusal_when_no_recognizer_witness :
    query_or_respond_prompt cfg_no_recognizer st_with_attachment =
      system_msgs cfg_no_recognizer ++ [.humanMsg refusal_text] ∧
    (suggest_questions cfg_no_recognizer st_with_attachment
      (fun _ => { role := Role.ai, content := [] })).length = 1 :=
  ⟨(refusal_when_no_recognizer cfg_no_recognizer st_with_attachment
      (fun _ => { role := Role.ai, content := [] }) att_example rfl rfl).1,
   (refusal_when_no_recognizer cfg_no_recognizer st_with_attachment
      (fun _ => { role := Role.ai, content := [] }) att_example rfl rfl).2.2.2.2.2⟩

/-- Claim C8: build_graph() produces the TOOLS nodes and their edges (one
tool-edge per caller, looping back to its caller) exactly when at least one
tool is configured; with no tools, both RESPOND and SUGGEST have no outgoing
edges and therefore route directly to the terminal state. -/
theorem build_graph_tools_spec (tools : Option (List String)) :
    (hasToolsTopology (build_graph_topology tools) = true ↔
      ∃ ts, tools = some ts ∧ ts ≠ []) ∧
    ((tools = none ∨ tools = some []) →
      successors (build_graph_topology tools) node_query_or_respond = [END] ∧
      successors (build_graph_topology tools) node_suggest_questions = [END]) ∧
    (∀ ts, tools = some ts → ts ≠ [] →
      successors (build_graph_topology tools) node_query_or_respond =
        [node_tools_1, END] ∧
      successors (build_graph_topology tools) node_suggest_questions =
        [node_tools_2, END] ∧
      successors (build_graph_topology tools) node_tools_1 = [node_query_or_respond] ∧
      successors (build_graph_topology tools) node_tools_2 = [node_suggest_questions]) := by
  cases tools with
  | none =>
    refine ⟨?_, ?_, ?_⟩
    · constructor
      · intro hcontra
        exact absurd hcontra (by decide)
      · rintro ⟨ts, hts, -⟩
        cases hts
    · intro _
      exact ⟨by decide, by decide⟩
    · intro ts hts
      cases hts
  | some ts =>
    by_cases hts : ts = []
    · subst hts
      refine ⟨?_, ?_, ?_⟩
      · constructor
        · intro hcontra
          exact absurd hcontra (by decide)
        · rintro ⟨ts', hts', hne⟩
          injection hts' with hx
          exact absurd hx.symm hne
      · intro _
        exact ⟨by decide, by decide⟩
      · intro ts' hx hne
        injection hx with hx
        exact absurd hx.symm hne
    · have hlen : ts.length ≠ 0 := fun hl => hts (List.length_eq_zero.mp hl)
      have hbg : build_graph_topology (some ts) =
          { nodes := [node_query_or_respond, node_suggest_questions,
                      node_tools_1, node_tools_2],
            edges := [(node_tools_1, node_query_or_respond),
                      (node_tools_2, node_suggest_questions)],
            condEdges := [(node_query_or_respond, [node_tools_1, END]),
                          (node_suggest_questions, [node_tools_2, END]),
                          (START, [node_suggest_questions, node_query_or_respond])] } := by
        simp [build_graph_topology, hlen]
      refine ⟨?_, ?_, ?_⟩
      · constructor
        · intro _
          exact ⟨ts, rfl, hts⟩
        · intro _
          rw [hbg]
          decide
      · rintro (hcontra | hcontra)
        · cases hcontra
        · injection hcontra with hx
          exact absurd hx hts
      · intro ts' heq hne
        rw [hbg]
        exact ⟨by decide, by decide, by decide, by decide⟩

/-- Witness: a one-tool configuration has a TOOLS-reachable topology with the
loop-back edges, while the no-tools topology sends both nodes straight to
the terminal state. -/
theorem build_graph_tools_spec_witness :
    hasToolsTopology (build_graph_topology (some ["search"])) = true ∧
    successors (build_graph_topology none) node_query_or_respond = [END] ∧
    successors (build_graph_topology (some ["search"])) node_suggest_questions =
      [node_tools_2, END] :=
  ⟨(build_graph_tools_spec (some ["search"])).1.mpr ⟨["search"], rfl, by decide⟩,
   ((build_graph_tools_spec none).2.1 (Or.inl rfl)).1,
   ((build_graph_tools_spec (some ["search"])).2.2 ["search"] rfl (by decide)).2.1⟩

end RagAgent
